import Mathlib

/-!
Verification of the NetSourceAI conversation loop (`src/code/ai_management.py`
and the reset operation of `src/code/app.py`).

The embedding keeps the source's structure: the conversation history is a
list of role-tagged messages, `_process_tool_calls` is a fold that appends
one tool message per tool call (a Python `KeyError` raised by a dict
subscript is modelled as an `Except.error`), and `generation_loop` threads
the history through the two model calls.  The two model calls and the three
tool callables are external collaborators, so they enter as function-valued
parameters (`TurnEnv`, `ToolsEnv`).  Python object identity between the
`history` and `system_prompt` attributes is modelled by a small store of
list objects indexed by allocation order (`AiConv`).
-/

namespace NetSourceAI

/-- Outcome of `json.loads(tool_call.function.arguments)`: either a JSON
object (modelled as a string-keyed mapping of string values, the only value
shape the tools consume) or a parse failure (the `except` branch of
`_process_tool_calls`). -/
inductive ArgsParse where
  | ok : List (String × String) → ArgsParse
  | fail : ArgsParse
deriving Repr, DecidableEq

/-- The `function` field of a tool call: name plus the (already parsed or
failed) arguments payload. -/
structure ToolFunction where
  name : String
  argumentsP : ArgsParse
deriving Repr, DecidableEq

/-- A tool call entry as delivered by the model and stored verbatim in the
assistant message built by `_add_tool_calls_to_history`. -/
structure ToolCall where
  id : String
  type : String
  function : ToolFunction
deriving Repr, DecidableEq

/-- A message of the conversation history (`self.history`).  `assistantMsg`
content is optional because `response.choices[0].message.content` can be
`None`; `assistantToolCalls` is the dict with a `tool_calls` key and no
content; `toolMsg` carries the serialized result and the `tool_call_id`. -/
inductive Message where
  | systemMsg (content : String)
  | userMsg (content : String)
  | assistantMsg (content : Option String)
  | assistantToolCalls (tool_calls : List ToolCall)
  | toolMsg (content : String) (tool_call_id : String)
deriving Repr, DecidableEq

/-- A Python exception escaping the code under study: a `KeyError` from a
dict subscript, or a transport failure raised inside
`client.chat.completions.create`. -/
inductive PyError where
  | keyError (key : String)
  | modelCallFailed (reason : String)
deriving Repr, DecidableEq

/-- The three tool callables of `Tools_Class`.  Each catches its own
exceptions internally (`try`/`except` around its whole body) and returns a
string, so they are total functions here. -/
structure ToolsEnv where
  fetch_wikipedia_information : String → String
  fetch_internet_information : String → String
  get_current_date_and_time : Unit → String

/-- The `try: args = json.loads(...) except: args = dict()` preamble of each
iteration of `_process_tool_calls`. -/
def loadedArgs : ArgsParse → List (String × String)
  | ArgsParse.ok m => m
  | ArgsParse.fail => []

/-- Python dict subscript `args[k]`: the value when the key is present, a
`KeyError` otherwise. -/
def dictGet (args : List (String × String)) (k : String) : Except PyError String :=
  match args.lookup k with
  | some v => Except.ok v
  | none => Except.error (PyError.keyError k)

/-- One iteration of the dispatch chain of `_process_tool_calls` (lines
163-181): parse arguments with fallback, then dispatch on the tool name;
unknown names yield the fixed sentinel string.  The dict subscripts on
`args` are the only exception sources. -/
def processToolCall (env : ToolsEnv) (tc : ToolCall) : Except PyError String :=
  let name_function := tc.function.name
  let args := loadedArgs tc.function.argumentsP
  if name_function = "fetch_wikipedia_information" then
    (dictGet args "wikipedia_query").map env.fetch_wikipedia_information
  else if name_function = "fetch_internet_information" then
    (dictGet args "query").map env.fetch_internet_information
  else if name_function = "get_current_date_and_time" then
    Except.ok (env.get_current_date_and_time ())
  else
    Except.ok "Error: not all variables have been provided."

/-- `json.dumps` escaping for the characters that can occur in the tool
result strings (backslash and double quote). -/
def jsonEscape (s : String) : String :=
  String.join (s.toList.map (fun c =>
    if c = '\\' then "\\\\" else if c = '"' then "\\\"" else String.singleton c))

/-- The string `json.dumps` produces for the dict with a `status` and a
`message` key (line 187), i.e. `\x7b"status": s, "message": m\x7d` with
default separators. -/
def toolResultDumps (status message : String) : String :=
  "\x7b\"status\": \"" ++ jsonEscape status ++ "\", \"message\": \"" ++
    jsonEscape message ++ "\"\x7d"

/-- The tool message appended for one result (lines 185-189): the code
always serializes the literal status `"success"`. -/
def toolResultMsg (result : String) (id : String) : Message :=
  Message.toolMsg (toolResultDumps "success" result) id

/-- `_process_tool_calls` as a fold over the batch: each successful call
appends its tool message to the history; a raised `KeyError` escapes the
loop, leaving the history as mutated so far (second component `some e`). -/
def processToolCalls (env : ToolsEnv) : List ToolCall → List Message →
    List Message × Option PyError
  | [], history => (history, none)
  | tc :: rest, history =>
    match processToolCall env tc with
    | Except.error e => (history, some e)
    | Except.ok result => processToolCalls env rest (history ++ [toolResultMsg result tc.id])

/-- `response.choices[0].message` of the first, non-streamed model call: a
content (possibly `None`) and a `tool_calls` list (the empty list models the
falsy `None`/empty case of line 87). -/
structure ModelMsg where
  content : Option String
  tool_calls : List ToolCall
deriving Repr, DecidableEq

/-- The external collaborators of one turn: the tool callables, the first
model call (`create` with the tool schema and temperature, line 80), and the
second model call (`create` with `stream=True` and no tools, line 115).  The
stream yields delta contents in arrival order, possibly followed by an
exception raised while creating or iterating the stream. -/
structure TurnEnv where
  tools : ToolsEnv
  createWithTools : List Message → Except PyError ModelMsg
  createStream : List Message → List (Option String) × Option PyError

/-- Python truthiness of `chunk.choices[0].delta.content` (line 124): a
non-`None`, non-empty string. -/
def contentTruthy : Option String → Bool
  | some s => s ≠ ""
  | none => false

/-- The accumulation loop over stream chunks (lines 122-127): concatenate
every truthy delta content into `ai_output`. -/
def streamConcat (chunks : List (Option String)) : String :=
  chunks.foldl (fun acc c => if contentTruthy c then acc ++ c.getD "" else acc) ""

/-- `_generate_final_response`: issue the streamed call over the extended
history, concatenate the chunks, append the final assistant message and
return `ai_output`; a failure of the streamed call escapes before the
append. -/
def generate_final_response (env : TurnEnv) (history : List Message) :
    List Message × Except PyError (Option String) :=
  match env.createStream history with
  | (_, some e) => (history, Except.error e)
  | (chunks, none) =>
    let ai_output := streamConcat chunks
    (history ++ [Message.assistantMsg (some ai_output)], Except.ok (some ai_output))

/-- `_add_tool_calls_to_history`: append one assistant message whose
`tool_calls` field lists all requests verbatim. -/
def add_tool_calls_to_history (tool_calls : List ToolCall) (history : List Message) :
    List Message :=
  history ++ [Message.assistantToolCalls tool_calls]

/-- `generation_loop`: append the user message, issue the first model call,
then either answer directly or run the tool branch followed by
`_generate_final_response`.  The successive states of the mutated
`self.history` list are written out explicitly; the first component is the
history object's final contents (also on the error paths, where the
exception propagates to the caller as the second component). -/
def generation_loop (env : TurnEnv) (history : List Message) (message : String) :
    List Message × Except PyError (Option String) :=
  match env.createWithTools (history ++ [Message.userMsg message]) with
  | Except.error e => (history ++ [Message.userMsg message], Except.error e)
  | Except.ok respMsg =>
    if respMsg.tool_calls ≠ [] then
      match processToolCalls env.tools respMsg.tool_calls
          (add_tool_calls_to_history respMsg.tool_calls
            (history ++ [Message.userMsg message])) with
      | (hist, some e) => (hist, Except.error e)
      | (hist, none) => generate_final_response env hist
    else
      (history ++ [Message.userMsg message] ++ [Message.assistantMsg respMsg.content],
        Except.ok respMsg.content)

/-- The `Ai_Management` conversation attributes with Python object identity
made explicit: `store` holds the list objects ever allocated (indexed by
allocation order), and `system_prompt` / `history` are references into it. -/
structure AiConv where
  store : List (List Message)
  system_prompt : Nat
  history : Nat
deriving Repr, DecidableEq

/-- `_initialize_conversation`: allocate one list holding the system message
and bind both attributes to that same object (lines 55-58). -/
def AiConv.init (sysPrompt : String) : AiConv :=
  { store := [[Message.systemMsg sysPrompt]], system_prompt := 0, history := 0 }

/-- The list object currently referenced by the `history` attribute. -/
def histList (c : AiConv) : List Message :=
  c.store.getD c.history []

/-- The list object currently referenced by the `system_prompt` attribute. -/
def sysPromptList (c : AiConv) : List Message :=
  c.store.getD c.system_prompt []

/-- One turn acting on the conversation object: all appends of
`generation_loop` go through `self.history.append`, i.e. they mutate the
list object the `history` reference points to. -/
def turnConv (env : TurnEnv) (c : AiConv) (message : String) :
    AiConv × Except PyError (Option String) :=
  let r := generation_loop env (histList c) message
  ({ c with store := c.store.set c.history r.1 }, r.2)

/-- `GUI._clear_chat_history` (app.py line 127):
`self.ai_chat.history = self.ai_chat.system_prompt` rebinds the `history`
reference; no list object is copied or truncated. -/
def clear_chat_history (c : AiConv) : AiConv :=
  { c with history := c.system_prompt }

/-- The argument key each known tool extracts from the parsed mapping
(`wikipedia_query` for the encyclopedia tool, `query` for the web search);
`none` for the no-argument time tool and for unknown names. -/
def requiredArgKey (name : String) : Option String :=
  if name = "fetch_wikipedia_information" then some "wikipedia_query"
  else if name = "fetch_internet_information" then some "query"
  else none

/-- Concrete stand-ins for the three tool callables, used to evaluate the
loop on closed inputs. -/
def sampleTools : ToolsEnv where
  fetch_wikipedia_information := fun q => "wiki:" ++ q
  fetch_internet_information := fun q => "web:" ++ q
  get_current_date_and_time := fun _ => "The current date and time is: 2026-10-12 09:00:00"

/-- A model that answers directly, with no tool calls. -/
def directEnv : TurnEnv where
  tools := sampleTools
  createWithTools := fun _ => Except.ok { content := some "Hi there!", tool_calls := [] }
  createStream := fun _ => ([], none)

/-- A single well-formed call to the time tool. -/
def timeCall : ToolCall :=
  { id := "call_1", type := "function",
    function := { name := "get_current_date_and_time", argumentsP := ArgsParse.ok [] } }

/-- A model that requests the time tool and then streams a two-fragment
answer (with a `None` delta in between, as real streams produce). -/
def toolEnv : TurnEnv where
  tools := sampleTools
  createWithTools := fun _ => Except.ok { content := none, tool_calls := [timeCall] }
  createStream := fun _ => ([some "It is ", none, some "noon."], none)

/-- A model whose first (non-streamed) call raises a transport error. -/
def failFirstEnv : TurnEnv where
  tools := sampleTools
  createWithTools := fun _ => Except.error (PyError.modelCallFailed "connection refused")
  createStream := fun _ => ([], none)

/-- A model whose streamed call fails after delivering one fragment. -/
def failStreamEnv : TurnEnv where
  tools := sampleTools
  createWithTools := fun _ => Except.ok { content := none, tool_calls := [timeCall] }
  createStream := fun _ => ([some "par"], some (PyError.modelCallFailed "connection reset"))

/-- Concatenation, in arrival order, of the stream's content fragments (a
`None` delta contributes nothing) — the spec's description of the final
text, to be compared with the truthiness-guarded loop `streamConcat`. -/
def plainConcat (chunks : List (Option String)) : String :=
  chunks.foldl (fun acc c => acc ++ c.getD "") ""

/-- A tool call naming a tool outside the known set. -/
def mysteryCall : ToolCall :=
  { id := "id9", type := "function",
    function := { name := "mystery_tool", argumentsP := ArgsParse.ok [] } }

/-- A time-tool call whose raw arguments failed to parse. -/
def dateCallBadArgs : ToolCall :=
  { id := "d1", type := "function",
    function := { name := "get_current_date_and_time", argumentsP := ArgsParse.fail } }

/-- A web-search call whose raw arguments failed to parse. -/
def webCallBadArgs : ToolCall :=
  { id := "w1", type := "function",
    function := { name := "fetch_internet_information", argumentsP := ArgsParse.fail } }

theorem processToolCalls_nil (env : ToolsEnv) (h : List Message) :
    processToolCalls env [] h = (h, none) := rfl

theorem processToolCalls_cons_ok (env : ToolsEnv) (tc : ToolCall) (rest : List ToolCall)
    (h : List Message) (r : String) (hr : processToolCall env tc = Except.ok r) :
    processToolCalls env (tc :: rest) h =
      processToolCalls env rest (h ++ [toolResultMsg r tc.id]) := by
  simp [processToolCalls, hr]

theorem processToolCalls_cons_error (env : ToolsEnv) (tc : ToolCall) (rest : List ToolCall)
    (h : List Message) (e : PyError) (he : processToolCall env tc = Except.error e) :
    processToolCalls env (tc :: rest) h = (h, some e) := by
  simp [processToolCalls, he]

/-- The batch loop only ever appends: its final history extends the input
history. -/
theorem processToolCalls_extends (env : ToolsEnv) (tcs : List ToolCall) (h : List Message) :
    ∃ tail, (processToolCalls env tcs h).1 = h ++ tail := by
  induction tcs generalizing h with
  | nil => exact ⟨[], by simp [processToolCalls]⟩
  | cons tc rest ih =>
    cases hr : processToolCall env tc with
    | error e => exact ⟨[], by simp [processToolCalls_cons_error env tc rest h e hr]⟩
    | ok r =>
      obtain ⟨tail, htail⟩ := ih (h ++ [toolResultMsg r tc.id])
      exact ⟨toolResultMsg r tc.id :: tail, by
        simp [processToolCalls_cons_ok env tc rest h r hr, htail]⟩

/-- When no exception escapes the batch, the loop appends exactly one tool
message per tool call, carrying that call's id, in order. -/
theorem processToolCalls_ok_shape (env : ToolsEnv) (tcs : List ToolCall) (h : List Message)
    (hok : (processToolCalls env tcs h).2 = none) :
    ∃ contents : List String, contents.length = tcs.length ∧
      (processToolCalls env tcs h).1 =
        h ++ List.zipWith (fun r tc => toolResultMsg r tc.id) contents tcs := by
  induction tcs generalizing h with
  | nil => exact ⟨[], rfl, by simp [processToolCalls]⟩
  | cons tc rest ih =>
    cases hr : processToolCall env tc with
    | error e =>
      rw [processToolCalls_cons_error env tc rest h e hr] at hok
      exact absurd hok (by simp)
    | ok r =>
      rw [processToolCalls_cons_ok env tc rest h r hr] at hok ⊢
      obtain ⟨cs, hlen, hshape⟩ := ih (h ++ [toolResultMsg r tc.id]) hok
      refine ⟨r :: cs, by simp [hlen], ?_⟩
      simp [hshape]

/-- Every message the batch loop adds to the history is a tool message whose
content is the success-status serialization of some result string. -/
theorem processToolCalls_mem (env : ToolsEnv) (tcs : List ToolCall) (h : List Message)
    (m : Message) (hm : m ∈ (processToolCalls env tcs h).1) :
    m ∈ h ∨ ∃ r id, m = Message.toolMsg (toolResultDumps "success" r) id := by
  induction tcs generalizing h with
  | nil =>
    rw [processToolCalls_nil] at hm
    exact Or.inl hm
  | cons tc rest ih =>
    cases hr : processToolCall env tc with
    | error e =>
      rw [processToolCalls_cons_error env tc rest h e hr] at hm
      exact Or.inl hm
    | ok r =>
      rw [processToolCalls_cons_ok env tc rest h r hr] at hm
      rcases ih (h ++ [toolResultMsg r tc.id]) hm with hmem | hres
      · rcases List.mem_append.mp hmem with hmem | hmem
        · exact Or.inl hmem
        · exact Or.inr ⟨r, tc.id, by simpa [toolResultMsg] using hmem⟩
      · exact Or.inr hres

/-- Equation for `generation_loop` when the first model call raises: the
exception is returned and the history holds exactly what it held before the
call (the user message was appended before it). -/
theorem generation_loop_first_error (env : TurnEnv) (h : List Message) (msg : String)
    (e : PyError) (he : env.createWithTools (h ++ [Message.userMsg msg]) = Except.error e) :
    generation_loop env h msg = (h ++ [Message.userMsg msg], Except.error e) := by
  unfold generation_loop
  rw [he]

/-- Equation for `generation_loop` on the direct-answer branch. -/
theorem generation_loop_direct (env : TurnEnv) (h : List Message) (msg : String)
    (resp : ModelMsg)
    (hresp : env.createWithTools (h ++ [Message.userMsg msg]) = Except.ok resp)
    (hempty : resp.tool_calls = []) :
    generation_loop env h msg =
      (h ++ [Message.userMsg msg] ++ [Message.assistantMsg resp.content],
        Except.ok resp.content) := by
  unfold generation_loop
  rw [hresp]
  simp [hempty]

/-- Equation for `generation_loop` when the batch loop raises. -/
theorem generation_loop_tools_error (env : TurnEnv) (h : List Message) (msg : String)
    (resp : ModelMsg) (hist : List Message) (e : PyError)
    (hresp : env.createWithTools (h ++ [Message.userMsg msg]) = Except.ok resp)
    (hcalls : resp.tool_calls ≠ [])
    (hpt : processToolCalls env.tools resp.tool_calls
      (add_tool_calls_to_history resp.tool_calls (h ++ [Message.userMsg msg])) =
        (hist, some e)) :
    generation_loop env h msg = (hist, Except.error e) := by
  unfold generation_loop
  rw [hresp]
  simp [hcalls, hpt]

/-- Equation for `generation_loop` when the batch loop completes: the turn
ends in `_generate_final_response` over the extended history. -/
theorem generation_loop_tools_ok (env : TurnEnv) (h : List Message) (msg : String)
    (resp : ModelMsg) (hist : List Message)
    (hresp : env.createWithTools (h ++ [Message.userMsg msg]) = Except.ok resp)
    (hcalls : resp.tool_calls ≠ [])
    (hpt : processToolCalls env.tools resp.tool_calls
      (add_tool_calls_to_history resp.tool_calls (h ++ [Message.userMsg msg])) =
        (hist, none)) :
    generation_loop env h msg = generate_final_response env hist := by
  unfold generation_loop
  rw [hresp]
  simp [hcalls, hpt]

/-- Equation for `_generate_final_response` when the streamed call fails:
nothing is appended and the exception is returned. -/
theorem generate_final_response_error (env : TurnEnv) (h : List Message)
    (chunks : List (Option String)) (e : PyError)
    (he : env.createStream h = (chunks, some e)) :
    generate_final_response env h = (h, Except.error e) := by
  unfold generate_final_response
  rw [he]

/-- Equation for `_generate_final_response` when the stream completes. -/
theorem generate_final_response_ok (env : TurnEnv) (h : List Message)
    (chunks : List (Option String)) (hc : env.createStream h = (chunks, none)) :
    generate_final_response env h =
      (h ++ [Message.assistantMsg (some (streamConcat chunks))],
        Except.ok (some (streamConcat chunks))) := by
  unfold generate_final_response
  rw [hc]

/-- The truthiness guard of the accumulation loop is immaterial: skipping a
falsy delta coincides with appending the empty string it denotes. -/
theorem streamConcat_eq_plainConcat (chunks : List (Option String)) :
    streamConcat chunks = plainConcat chunks := by
  unfold streamConcat plainConcat
  refine List.foldl_ext _ _ "" (fun a c _ => ?_)
  cases c with
  | none => simp [contentTruthy]
  | some s =>
    by_cases hs : s = "" <;> simp [contentTruthy, hs]

/-- `_generate_final_response` never removes messages. -/
theorem generate_final_response_extends (env : TurnEnv) (h : List Message) :
    ∃ tail, (generate_final_response env h).1 = h ++ tail := by
  unfold generate_final_response
  cases hc : env.createStream h with
  | mk chunks opt =>
    cases opt with
    | some e => exact ⟨[], by simp⟩
    | none => exact ⟨[Message.assistantMsg (some (streamConcat chunks))], rfl⟩

/-- Every path of `generation_loop` strictly grows the history: the user
message is appended before anything can fail. -/
theorem generation_loop_grows (env : TurnEnv) (h : List Message) (msg : String) :
    h.length < (generation_loop env h msg).1.length := by
  cases hc : env.createWithTools (h ++ [Message.userMsg msg]) with
  | error e =>
    rw [generation_loop_first_error env h msg e hc]
    simp
  | ok resp =>
    by_cases hcalls : resp.tool_calls = []
    · rw [generation_loop_direct env h msg resp hc hcalls]
      simp
    · obtain ⟨tail, ht⟩ := processToolCalls_extends env.tools resp.tool_calls
        (add_tool_calls_to_history resp.tool_calls (h ++ [Message.userMsg msg]))
      cases hpt : processToolCalls env.tools resp.tool_calls
          (add_tool_calls_to_history resp.tool_calls (h ++ [Message.userMsg msg])) with
      | mk hist st =>
        rw [hpt] at ht
        replace ht : hist =
            add_tool_calls_to_history resp.tool_calls (h ++ [Message.userMsg msg]) ++ tail := by
          simpa using ht
        cases st with
        | some e =>
          rw [generation_loop_tools_error env h msg resp hist e hc hcalls hpt, ht,
            add_tool_calls_to_history]
          simp
        | none =>
          obtain ⟨tail2, ht2⟩ := generate_final_response_extends env hist
          rw [generation_loop_tools_ok env h msg resp hist hc hcalls hpt, ht2, ht,
            add_tool_calls_to_history]
          simp

/-- `List.set` followed by lookup at the written index returns the written
value when the index is in range. -/
theorem getD_set_self {α : Type} (l : List α) (i : Nat) (a d : α) (hi : i < l.length) :
    (l.set i a).getD i d = a := by
  induction l generalizing i with
  | nil => simp at hi
  | cons x xs ih =>
    cases i with
    | zero => rfl
    | succ n =>
      simpa using ih n (by simpa using hi)

/-- Claim C1 (code-bug evaluation): after one direct-answer turn followed by
the clear-history reset, the history still holds all 3 messages instead of
the single system message — `history` and `system_prompt` alias one list
object, so rebinding `history` to `system_prompt` restores nothing. -/
theorem C1_reset_leaves_history_intact :
    histList (clear_chat_history (turnConv directEnv (AiConv.init "sys") "Hello").1) =
      [Message.systemMsg "sys", Message.userMsg "Hello",
        Message.assistantMsg (some "Hi there!")] := by
  rfl

/-- Claim C2 (counterexample): a batch holding an encyclopedia call whose
argument mapping lacks `wikipedia_query` followed by a well-formed time
call makes `_process_tool_calls` raise `KeyError`: no error result is
recorded for the first call and the second call is never executed. -/
theorem C2_missing_argument_counterexample :
    processToolCalls sampleTools
      [ { id := "id1", type := "function",
          function := { name := "fetch_wikipedia_information",
                        argumentsP := ArgsParse.ok [] } },
        { id := "id2", type := "function",
          function := { name := "get_current_date_and_time",
                        argumentsP := ArgsParse.ok [] } } ]
      [] = ([], some (PyError.keyError "wikipedia_query")) := by
  rfl

/-- Claim C2 (amended): for every tool call naming a known tool whose
required argument key is absent from the parsed mapping, the dict subscript
raises a `KeyError` that propagates out of `_process_tool_calls`: no tool
message is appended for that call and the remaining calls of the batch are
not executed. -/
theorem C2_missing_argument_propagates (env : ToolsEnv) (tc : ToolCall)
    (rest : List ToolCall) (h : List Message) (k : String)
    (hk : requiredArgKey tc.function.name = some k)
    (hmiss : (loadedArgs tc.function.argumentsP).lookup k = none) :
    processToolCalls env (tc :: rest) h = (h, some (PyError.keyError k)) := by
  have hcall : processToolCall env tc = Except.error (PyError.keyError k) := by
    unfold requiredArgKey at hk
    by_cases h1 : tc.function.name = "fetch_wikipedia_information"
    · rw [if_pos h1] at hk
      injection hk with hk
      subst hk
      simp [processToolCall, h1, dictGet, hmiss, Except.map]
    · rw [if_neg h1] at hk
      by_cases h2 : tc.function.name = "fetch_internet_information"
      · rw [if_pos h2] at hk
        injection hk with hk
        subst hk
        simp [processToolCall, h1, h2, dictGet, hmiss, Except.map]
      · rw [if_neg h2] at hk
        cases hk
  exact processToolCalls_cons_error env tc rest h (PyError.keyError k) hcall

theorem C2_missing_argument_propagates_witness :
    processToolCalls sampleTools
      [ { id := "w1", type := "function",
          function := { name := "fetch_internet_information",
                        argumentsP := ArgsParse.ok [("q", "x")] } } ]
      [Message.systemMsg "s"] =
      ([Message.systemMsg "s"], some (PyError.keyError "query")) :=
  C2_missing_argument_propagates sampleTools
    { id := "w1", type := "function",
      function := { name := "fetch_internet_information",
                    argumentsP := ArgsParse.ok [("q", "x")] } }
    [] [Message.systemMsg "s"] "query" rfl rfl

/-- Claim C3 (counterexample): the error outcome of an unknown-tool call is
appended with status `success`, not status `error`; the two serializations
differ, so the claimed status never appears. -/
theorem C3_status_counterexample :
    processToolCalls sampleTools [mysteryCall] [] =
      ([Message.toolMsg
          (toolResultDumps "success" "Error: not all variables have been provided.")
          "id9"], none) ∧
      toolResultDumps "success" "Error: not all variables have been provided." ≠
        toolResultDumps "error" "Error: not all variables have been provided." :=
  ⟨by rfl, by decide⟩

/-- Claim C3 (amended): every tool message `_process_tool_calls` appends —
whatever the outcome (success, unknown tool, or an error string returned by
a tool callable) — serializes a ToolResult whose status field is the
literal `success`; error text can only appear in the message field, and a
missing-argument failure appends no tool message at all. -/
theorem C3_status_always_success (env : ToolsEnv) (tcs : List ToolCall)
    (h : List Message) (m : Message)
    (hm : m ∈ (processToolCalls env tcs h).1) :
    m ∈ h ∨ ∃ r id, m = Message.toolMsg (toolResultDumps "success" r) id :=
  processToolCalls_mem env tcs h m hm

theorem C3_status_always_success_witness :
    Message.toolMsg
        (toolResultDumps "success" "Error: not all variables have been provided.")
        "id9" ∈ ([] : List Message) ∨
      ∃ r id,
        Message.toolMsg
            (toolResultDumps "success" "Error: not all variables have been provided.")
            "id9" =
          Message.toolMsg (toolResultDumps "success" r) id :=
  C3_status_always_success sampleTools [mysteryCall] [] _ (by
    show _ ∈ (processToolCalls sampleTools [mysteryCall] []).1
    have he : (processToolCalls sampleTools [mysteryCall] []).1 =
        [Message.toolMsg
          (toolResultDumps "success" "Error: not all variables have been provided.")
          "id9"] := rfl
    rw [he]
    exact List.mem_singleton_self _)

/-- Claim C5: a requested tool call whose function name is none of the three
known tools yields exactly the literal sentinel string as its result. -/
theorem C5_unknown_tool_sentinel (env : ToolsEnv) (tc : ToolCall)
    (h1 : tc.function.name ≠ "fetch_wikipedia_information")
    (h2 : tc.function.name ≠ "fetch_internet_information")
    (h3 : tc.function.name ≠ "get_current_date_and_time") :
    processToolCall env tc =
      Except.ok "Error: not all variables have been provided." := by
  simp [processToolCall, h1, h2, h3]

theorem C5_unknown_tool_sentinel_witness :
    processToolCall sampleTools mysteryCall =
      Except.ok "Error: not all variables have been provided." :=
  C5_unknown_tool_sentinel sampleTools mysteryCall (by decide) (by decide) (by decide)

/-- Claim C6 (counterexample): for the web-search tool a raw-arguments
string that fails to parse leads to the empty mapping, whose subscript then
raises a `KeyError` past the executor instead of returning a ToolResult. -/
theorem C6_parse_failure_counterexample :
    processToolCall sampleTools webCallBadArgs =
      Except.error (PyError.keyError "query") := by
  rfl

/-- Claim C6 (amended): on argument parse failure the executor substitutes
the empty mapping and continues; for the no-argument time tool and for
unknown tool names this returns a ToolResult without raising, but for the
two tools that subscript a required key the empty mapping makes that
subscript raise a `KeyError` past the executor. -/
theorem C6_parse_failure_behavior (env : ToolsEnv) (tc : ToolCall)
    (hfail : tc.function.argumentsP = ArgsParse.fail) :
    (requiredArgKey tc.function.name = none →
      ∃ r, processToolCall env tc = Except.ok r) ∧
    (∀ k, requiredArgKey tc.function.name = some k →
      processToolCall env tc = Except.error (PyError.keyError k)) := by
  constructor
  · intro hnone
    unfold requiredArgKey at hnone
    by_cases h1 : tc.function.name = "fetch_wikipedia_information"
    · simp [h1] at hnone
    · by_cases h2 : tc.function.name = "fetch_internet_information"
      · simp [h1, h2] at hnone
      · by_cases h3 : tc.function.name = "get_current_date_and_time"
        · exact ⟨env.get_current_date_and_time (),
            by simp [processToolCall, h1, h2, h3]⟩
        · exact ⟨"Error: not all variables have been provided.",
            by simp [processToolCall, h1, h2, h3]⟩
  · intro k hk
    unfold requiredArgKey at hk
    by_cases h1 : tc.function.name = "fetch_wikipedia_information"
    · rw [if_pos h1] at hk
      injection hk with hk
      subst hk
      simp [processToolCall, h1, hfail, loadedArgs, dictGet, Except.map]
    · rw [if_neg h1] at hk
      by_cases h2 : tc.function.name = "fetch_internet_information"
      · rw [if_pos h2] at hk
        injection hk with hk
        subst hk
        simp [processToolCall, h1, h2, hfail, loadedArgs, dictGet, Except.map]
      · rw [if_neg h2] at hk
        cases hk

theorem C6_parse_failure_behavior_witness :
    (∃ r, processToolCall sampleTools dateCallBadArgs = Except.ok r) ∧
      processToolCall sampleTools webCallBadArgs =
        Except.error (PyError.keyError "query") :=
  ⟨(C6_parse_failure_behavior sampleTools dateCallBadArgs rfl).1 rfl,
    (C6_parse_failure_behavior sampleTools webCallBadArgs rfl).2 "query" rfl⟩

/-- Claim C4: in a turn whose first model response carries tool calls and
that completes with a returned text, the history grows by exactly the user
message, then the assistant message listing all tool calls (placed before
every tool result), then one tool message per call carrying that call's id
in the same order, then one final assistant message holding the returned
text. -/
theorem C4_tool_turn_history_shape (env : TurnEnv) (h : List Message) (msg : String)
    (resp : ModelMsg)
    (hresp : env.createWithTools (h ++ [Message.userMsg msg]) = Except.ok resp)
    (hcalls : resp.tool_calls ≠ [])
    (text : Option String)
    (hdone : (generation_loop env h msg).2 = Except.ok text) :
    ∃ contents : List String, contents.length = resp.tool_calls.length ∧
      (generation_loop env h msg).1 =
        h ++ [Message.userMsg msg, Message.assistantToolCalls resp.tool_calls] ++
          List.zipWith (fun r tc => toolResultMsg r tc.id) contents resp.tool_calls ++
          [Message.assistantMsg text] := by
  cases hpt : processToolCalls env.tools resp.tool_calls
      (add_tool_calls_to_history resp.tool_calls (h ++ [Message.userMsg msg])) with
  | mk hist st =>
    cases st with
    | some e =>
      rw [generation_loop_tools_error env h msg resp hist e hresp hcalls hpt] at hdone
      exact absurd hdone (by simp)
    | none =>
      have hloop := generation_loop_tools_ok env h msg resp hist hresp hcalls hpt
      rw [hloop] at hdone ⊢
      cases hstream : env.createStream hist with
      | mk chunks sopt =>
        cases sopt with
        | some e =>
          rw [generate_final_response_error env hist chunks e hstream] at hdone
          exact absurd hdone (by simp)
        | none =>
          rw [generate_final_response_ok env hist chunks hstream] at hdone ⊢
          have htext : text = some (streamConcat chunks) := by
            simpa using hdone.symm
          obtain ⟨cs, hlen, hshape⟩ := processToolCalls_ok_shape env.tools
            resp.tool_calls
            (add_tool_calls_to_history resp.tool_calls (h ++ [Message.userMsg msg]))
            (by rw [hpt])
          rw [hpt] at hshape
          refine ⟨cs, hlen, ?_⟩
          simp only at hshape
          rw [hshape, htext]
          simp [add_tool_calls_to_history]

theorem C4_tool_turn_history_shape_witness :
    ∃ contents : List String, contents.length = [timeCall].length ∧
      (generation_loop toolEnv [Message.systemMsg "s"] "What time is it?").1 =
        [Message.systemMsg "s"] ++
          [Message.userMsg "What time is it?",
            Message.assistantToolCalls [timeCall]] ++
          List.zipWith (fun r tc => toolResultMsg r tc.id) contents [timeCall] ++
          [Message.assistantMsg (some "It is noon.")] :=
  C4_tool_turn_history_shape toolEnv [Message.systemMsg "s"] "What time is it?"
    { content := none, tool_calls := [timeCall] } rfl (by decide)
    (some "It is noon.") rfl

/-- Claim C7: a failure of either model call propagates to the caller as the
error value, and the history at that moment is left exactly as it was
before the failed call — the user message precedes the first call, and
nothing is appended on the failing stream path. -/
theorem C7_model_call_failure (env : TurnEnv) (h h2 : List Message) (msg : String) :
    (∀ e, env.createWithTools (h ++ [Message.userMsg msg]) = Except.error e →
      generation_loop env h msg = (h ++ [Message.userMsg msg], Except.error e)) ∧
    (∀ chunks e, env.createStream h2 = (chunks, some e) →
      generate_final_response env h2 = (h2, Except.error e)) :=
  ⟨fun e he => generation_loop_first_error env h msg e he,
    fun chunks e he => generate_final_response_error env h2 chunks e he⟩

theorem C7_model_call_failure_witness :
    generation_loop failFirstEnv [Message.systemMsg "s"] "hi" =
      ([Message.systemMsg "s", Message.userMsg "hi"],
        Except.error (PyError.modelCallFailed "connection refused")) ∧
      generate_final_response failStreamEnv [Message.systemMsg "s"] =
        ([Message.systemMsg "s"],
          Except.error (PyError.modelCallFailed "connection reset")) :=
  ⟨(C7_model_call_failure failFirstEnv [Message.systemMsg "s"] [] "hi").1
      (PyError.modelCallFailed "connection refused") rfl,
    (C7_model_call_failure failStreamEnv [] [Message.systemMsg "s"] "hi").2
      [some "par"] (PyError.modelCallFailed "connection reset") rfl⟩

/-- Claim C8: in a turn whose first model response carries no tool calls,
the history grows by exactly the user message and one assistant message,
and the returned value is that assistant message's content. -/
theorem C8_direct_answer (env : TurnEnv) (h : List Message) (msg : String)
    (resp : ModelMsg)
    (hresp : env.createWithTools (h ++ [Message.userMsg msg]) = Except.ok resp)
    (hempty : resp.tool_calls = []) :
    generation_loop env h msg =
      (h ++ [Message.userMsg msg, Message.assistantMsg resp.content],
        Except.ok resp.content) := by
  have hd := generation_loop_direct env h msg resp hresp hempty
  simpa using hd

theorem C8_direct_answer_witness :
    generation_loop directEnv [Message.systemMsg "s"] "Hello" =
      ([Message.systemMsg "s", Message.userMsg "Hello",
        Message.assistantMsg (some "Hi there!")],
        Except.ok (some "Hi there!")) :=
  C8_direct_answer directEnv [Message.systemMsg "s"] "Hello"
    { content := some "Hi there!", tool_calls := [] } rfl rfl

/-- Claim C9: in a turn that dispatched tool calls and whose batch
completed, the second model request is the streamed, schema-free call
issued over the extended history; the returned text is the concatenation of
the stream's content fragments in arrival order, and it is exactly the
content of the single final assistant message appended. -/
theorem C9_final_stream (env : TurnEnv) (h : List Message) (msg : String)
    (resp : ModelMsg) (hist : List Message) (chunks : List (Option String))
    (hresp : env.createWithTools (h ++ [Message.userMsg msg]) = Except.ok resp)
    (hcalls : resp.tool_calls ≠ [])
    (hpt : processToolCalls env.tools resp.tool_calls
      (add_tool_calls_to_history resp.tool_calls (h ++ [Message.userMsg msg])) =
        (hist, none))
    (hstream : env.createStream hist = (chunks, none)) :
    generation_loop env h msg =
      (hist ++ [Message.assistantMsg (some (plainConcat chunks))],
        Except.ok (some (plainConcat chunks))) := by
  rw [generation_loop_tools_ok env h msg resp hist hresp hcalls hpt,
    generate_final_response_ok env hist chunks hstream,
    streamConcat_eq_plainConcat]

theorem C9_final_stream_witness :
    generation_loop toolEnv [Message.systemMsg "s"] "What time is it?" =
      ([Message.systemMsg "s", Message.userMsg "What time is it?",
        Message.assistantToolCalls [timeCall],
        toolResultMsg "The current date and time is: 2026-10-12 09:00:00" "call_1",
        Message.assistantMsg (some (plainConcat [some "It is ", none, some "noon."]))],
        Except.ok (some (plainConcat [some "It is ", none, some "noon."]))) :=
  C9_final_stream toolEnv [Message.systemMsg "s"] "What time is it?"
    { content := none, tool_calls := [timeCall] }
    [Message.systemMsg "s", Message.userMsg "What time is it?",
      Message.assistantToolCalls [timeCall],
      toolResultMsg "The current date and time is: 2026-10-12 09:00:00" "call_1"]
    [some "It is ", none, some "noon."] rfl (by decide) rfl rfl

/-- Claim C10: after construction the `history` and `system_prompt`
attributes reference the same list object; a turn preserves the aliasing,
every message appended during the turn is visible through `system_prompt`,
and the list seen through `system_prompt` strictly grows — the turn does
not leave the `system_prompt` view unchanged. -/
theorem C10_history_aliases_system_prompt (sys msg : String) (env : TurnEnv) :
    ((AiConv.init sys).history = (AiConv.init sys).system_prompt) ∧
    ∀ c : AiConv, c.history = c.system_prompt → c.history < c.store.length →
      ((turnConv env c msg).1.history = (turnConv env c msg).1.system_prompt ∧
        sysPromptList (turnConv env c msg).1 = histList (turnConv env c msg).1 ∧
        (sysPromptList c).length < (sysPromptList (turnConv env c msg).1).length) := by
  refine ⟨rfl, fun c halias hlt => ⟨halias, ?_, ?_⟩⟩
  · simp [sysPromptList, histList, turnConv, halias]
  · have h1 : sysPromptList c = histList c := by
      simp [sysPromptList, histList, halias]
    have h2 : sysPromptList (turnConv env c msg).1 =
        (generation_loop env (histList c) msg).1 := by
      show (c.store.set c.history
          (generation_loop env (histList c) msg).1).getD c.system_prompt [] = _
      rw [← halias]
      exact getD_set_self c.store c.history _ [] hlt
    rw [h1, h2]
    exact generation_loop_grows env (histList c) msg

theorem C10_history_aliases_system_prompt_witness :
    (turnConv directEnv (AiConv.init "sys") "Hello").1.history =
        (turnConv directEnv (AiConv.init "sys") "Hello").1.system_prompt ∧
      sysPromptList (turnConv directEnv (AiConv.init "sys") "Hello").1 =
        histList (turnConv directEnv (AiConv.init "sys") "Hello").1 ∧
      (sysPromptList (AiConv.init "sys")).length <
        (sysPromptList (turnConv directEnv (AiConv.init "sys") "Hello").1).length :=
  (C10_history_aliases_system_prompt "sys" "Hello" directEnv).2 (AiConv.init "sys")
    rfl (by decide)

end NetSourceAI
